import Mathlib

/-!
Verification of the Trusted Log Attestation pipeline (logchain).

This file gives a shallow embedding of the pipeline's core code paths and
proves or refutes the frozen claims about them:

* the receipt service (`ingestion/service/core/service.go`) and its HTTP
  handler (`ingestion/service/http/handler.go`);
* the ingestion batcher (`ingestion/service/core/batch_processor.go`);
* the Kafka consumer wrapper (`internal/messaging/consumer`);
* the processing worker (`processing/worker.go`).

External effects (database calls, the ledger call, the Kafka fetch and the
JSON decode of a fetched payload) are passed in as explicit outcomes, and
every code path records the calls it makes as an event trace, so that
ordering claims ("publish only after insert", "ack only after the terminal
write") become statements about traces.

Machine integers are modelled as `Nat` with explicit `% 2 ^ 32` where Go
uses `uint32` (the SHA-256 core); Go `int64` quantities that the claims
compare against are modelled as `Int`.
-/

namespace Logchain

/-! ## Basic data model

`models.LogMessage` (queue payload), the state-store row and its status
enum, the ledger input/output types of `blockchain/types`, and the
completion/failure records the worker hands to the store.
-/

/-- `models.LogMessage`: the queue payload
`{RequestID, LogContent, LogHash, SourceOrgID, ReceivedTimestamp}`;
`ReceivedTimestamp` is a string field. -/
structure LogMessage where
  requestID : String := ""
  logContent : String := ""
  logHash : String := ""
  sourceOrgID : String := ""
  receivedTimestamp : String := ""
deriving DecidableEq, Repr, Inhabited

/-- The status column of a state row:
RECEIVED, PROCESSING, COMPLETED or FAILED. -/
inductive StoreStatus where
  | received
  | processing
  | completed
  | failed
deriving DecidableEq, Repr, Inhabited

/-- Wall-clock instant, as Go `time.Time` restricted to what the code
reads from it: whole Unix seconds and the nanosecond part (rendering is
modelled in UTC). -/
structure GoTime where
  unixSec : Nat := 0
  nanos : Nat := 0
deriving DecidableEq, Repr, Inhabited

/-- `store.LogStatus`: the fields of the state row that the embedded code
paths read or write. -/
structure LogStatus where
  requestID : String := ""
  logHash : String := ""
  sourceOrgID : String := ""
  receivedTimestamp : GoTime := {}
  status : StoreStatus := .received
  retryCount : Nat := 0
  errorMessage : String := ""
deriving DecidableEq, Repr, Inhabited

/-- `types.LogEntry`: one entry of the ledger call's input vector. -/
structure LogEntry where
  logHash : String := ""
  logContent : String := ""
  senderOrgID : String := ""
  timestamp : String := ""
deriving DecidableEq, Repr, Inhabited

/-- `types.LogProcessingStatus`: the five per-entry ledger verdicts. -/
inductive LedgerStatus where
  | success
  | skippedDuplicate
  | errorValidation
  | errorStateCheck
  | errorPutState
deriving DecidableEq, Repr, Inhabited

/-- The string constant behind each `types.LogProcessingStatus` value
(the Go type is a string type; `%s` prints this text). -/
def LedgerStatus.text : LedgerStatus → String
  | .success => "Success"
  | .skippedDuplicate => "SkippedDuplicate"
  | .errorValidation => "ErrorValidation"
  | .errorStateCheck => "ErrorStateCheck"
  | .errorPutState => "ErrorPutState"

/-- `types.LogStatusInfo`: one entry of the ledger call's result vector. -/
structure LogStatusInfo where
  logHash : String := ""
  status : LedgerStatus := .success
  message : String := ""
deriving DecidableEq, Repr, Inhabited

/-- `types.BatchProof`: transaction id and block height of the batch
transaction. -/
structure BatchProof where
  transactionID : String := ""
  blockHeight : Int := 0
deriving DecidableEq, Repr, Inhabited

/-- `store.CompletionRecord`: input of `MarkBatchAsCompleted`. -/
structure CompletionRecord where
  requestID : String := ""
  txHash : String := ""
  logHashOnChain : String := ""
  blockHeight : Int := 0
deriving DecidableEq, Repr, Inhabited

/-- `store.FailureRecord`: input of `MarkBatchAsFailed`. -/
structure FailureRecord where
  requestID : String := ""
  errorMessage : String := ""
deriving DecidableEq, Repr, Inhabited

/-! ## SHA-256

Executable model of Go `crypto/sha256` over a byte list (bytes are `Nat`
below 256, words are `Nat` reduced mod `2 ^ 32`), together with the
lower-case hex rendering that `fmt.Sprintf("%x", ...)` produces.
-/

/-- 32-bit truncation. -/
def mask32 (x : Nat) : Nat := x % 4294967296

/-- 32-bit right rotation. -/
def rotr32 (n x : Nat) : Nat := mask32 ((x >>> n) ||| (x <<< (32 - n)))

/-- SHA-256 `Ch(x,y,z) = (x AND y) XOR (NOT x AND z)` on 32-bit words. -/
def ch32 (x y z : Nat) : Nat := (x &&& y) ^^^ ((x ^^^ 4294967295) &&& z)

/-- SHA-256 `Maj(x,y,z)`. -/
def maj32 (x y z : Nat) : Nat := (x &&& y) ^^^ (x &&& z) ^^^ (y &&& z)

/-- SHA-256 Σ0. -/
def bigSigma0 (x : Nat) : Nat := rotr32 2 x ^^^ rotr32 13 x ^^^ rotr32 22 x

/-- SHA-256 Σ1. -/
def bigSigma1 (x : Nat) : Nat := rotr32 6 x ^^^ rotr32 11 x ^^^ rotr32 25 x

/-- SHA-256 σ0. -/
def smallSigma0 (x : Nat) : Nat := rotr32 7 x ^^^ rotr32 18 x ^^^ (x >>> 3)

/-- SHA-256 σ1. -/
def smallSigma1 (x : Nat) : Nat := rotr32 17 x ^^^ rotr32 19 x ^^^ (x >>> 10)

/-- The 64 SHA-256 round constants. -/
def sha256K : List Nat :=
  [1116352408, 1899447441, 3049323471, 3921009573, 961987163, 1508970993,
   2453635748, 2870763221, 3624381080, 310598401, 607225278, 1426881987,
   1925078388, 2162078206, 2614888103, 3248222580, 3835390401, 4022224774,
   264347078, 604807628, 770255983, 1249150122, 1555081692, 1996064986,
   2554220882, 2821834349, 2952996808, 3210313671, 3336571891, 3584528711,
   113926993, 338241895, 666307205, 773529912, 1294757372, 1396182291,
   1695183700, 1986661051, 2177026350, 2456956037, 2730485921, 2820302411,
   3259730800, 3345764771, 3516065817, 3600352804, 4094571909, 275423344,
   430227734, 506948616, 659060556, 883997877, 958139571, 1322822218,
   1537002063, 1747873779, 1955562222, 2024104815, 2227730452, 2361852424,
   2428436474, 2756734187, 3204031479, 3329325298]

/-- The SHA-256 initial hash value. -/
def sha256H0 : List Nat :=
  [1779033703, 3144134277, 1013904242, 2773480762,
   1359893119, 2600822924, 528734635, 1541459225]

/-- Merkle–Damgård padding: append `0x80`, zero bytes up to 56 mod 64,
then the bit length as 8 big-endian bytes. -/
def sha256Pad (msg : List Nat) : List Nat :=
  let padLen := (119 - msg.length % 64) % 64
  let bitLen := 8 * msg.length
  msg ++ [0x80] ++ List.replicate padLen 0 ++
    [56, 48, 40, 32, 24, 16, 8, 0].map (fun s => (bitLen >>> s) &&& 255)

/-- Big-endian 32-bit words from a byte list (groups of four). -/
def bytesToWords : List Nat → List Nat
  | a :: b :: c :: d :: rest =>
    (a * 16777216 + b * 65536 + c * 256 + d) :: bytesToWords rest
  | _ => []

/-- One extension step of the message schedule, on the reversed schedule
list (head is the most recent word). -/
def scheduleStep (rev : List Nat) : List Nat :=
  mask32 (smallSigma1 (rev.getD 1 0) + rev.getD 6 0 +
    smallSigma0 (rev.getD 14 0) + rev.getD 15 0) :: rev

/-- The 64-word message schedule of one block. -/
def sha256Schedule (w16 : List Nat) : List Nat :=
  (Nat.repeat scheduleStep 48 w16.reverse).reverse

/-- One compression round; the state is the word list `[a,b,c,d,e,f,g,h]`. -/
def sha256Round (st : List Nat) (kw : Nat × Nat) : List Nat :=
  let a := st.getD 0 0
  let b := st.getD 1 0
  let c := st.getD 2 0
  let d := st.getD 3 0
  let e := st.getD 4 0
  let f := st.getD 5 0
  let g := st.getD 6 0
  let h := st.getD 7 0
  let t1 := mask32 (h + bigSigma1 e + ch32 e f g + kw.1 + kw.2)
  let t2 := mask32 (bigSigma0 a + maj32 a b c)
  [mask32 (t1 + t2), a, b, c, mask32 (d + t1), e, f, g]

/-- Compress one 64-byte block into the running hash. -/
def sha256Block (h : List Nat) (block : List Nat) : List Nat :=
  let w := sha256Schedule (bytesToWords block)
  let fin := (sha256K.zip w).foldl sha256Round h
  (h.zip fin).map (fun p => mask32 (p.1 + p.2))

/-- Helper of `chunk64`: collect the current chunk in reverse in `cur`,
with `k` bytes of it still to fill. -/
def chunk64Go : List Nat → List Nat → Nat → List (List Nat)
  | [], cur, _ => if cur.isEmpty then [] else [cur.reverse]
  | x :: xs, cur, k =>
    if k ≤ 1 then ((x :: cur).reverse) :: chunk64Go xs [] 64
    else chunk64Go xs (x :: cur) (k - 1)

/-- Split a byte list into 64-byte chunks. -/
def chunk64 (l : List Nat) : List (List Nat) := chunk64Go l [] 64

/-- SHA-256 digest (32 bytes) of a byte list. -/
def sha256Bytes (msg : List Nat) : List Nat :=
  let hs := (chunk64 (sha256Pad msg)).foldl sha256Block sha256H0
  hs.foldr (fun w acc =>
    ((w >>> 24) &&& 255) :: ((w >>> 16) &&& 255) :: ((w >>> 8) &&& 255) :: (w &&& 255) :: acc) []

/-- UTF-8 encoding of one scalar value, as Go `[]byte(s)` produces. -/
def utf8Char (c : Char) : List Nat :=
  let n := c.toNat
  if n < 128 then [n]
  else if n < 2048 then [192 + n / 64, 128 + n % 64]
  else if n < 65536 then [224 + n / 4096, 128 + (n / 64) % 64, 128 + n % 64]
  else [240 + n / 262144, 128 + (n / 4096) % 64, 128 + (n / 64) % 64, 128 + n % 64]

/-- UTF-8 bytes of a string. -/
def utf8Encode (s : String) : List Nat := (s.data.map utf8Char).flatten

/-- Lower-case hex digit. -/
def hexDigit (n : Nat) : Char := "0123456789abcdef".data.getD n '0'

/-- Two lower-case hex digits of one byte, as `%x` renders it. -/
def hexByte (b : Nat) : List Char := [hexDigit (b / 16), hexDigit (b % 16)]

/-- Lower-case hex SHA-256 of a string: `fmt.Sprintf("%x", sha256.Sum256([]byte(s)))`. -/
def sha256Hex (s : String) : String :=
  String.mk ((sha256Bytes (utf8Encode s)).map hexByte).flatten

/-! ## Wall-clock rendering

Go `time.Time.Format(time.RFC3339Nano)` with the layout
`"2006-01-02T15:04:05.999999999Z07:00"`: the fractional second drops
trailing zeros (and the dot when zero) and a UTC zone renders as `Z`.
The clock is modelled in UTC.
-/

/-- Two-digit zero-padded decimal. -/
def pad2 (n : Nat) : String := if n < 10 then "0" ++ toString n else toString n

/-- Four-digit zero-padded decimal (year). -/
def pad4 (n : Nat) : String :=
  if n < 10 then "000" ++ toString n
  else if n < 100 then "00" ++ toString n
  else if n < 1000 then "0" ++ toString n
  else toString n

/-- Nine-digit zero-padded decimal (nanoseconds). -/
def pad9 (n : Nat) : String :=
  let s := toString n
  String.mk (List.replicate (9 - s.length) '0') ++ s

/-- Civil date (year, month, day) of a day count since 1970-01-01. -/
def civilFromDays (z0 : Nat) : Nat × Nat × Nat :=
  let z := z0 + 719468
  let era := z / 146097
  let doe := z % 146097
  let yoe := (doe - doe / 1460 + doe / 36524 - doe / 146096) / 365
  let y := yoe + era * 400
  let doy := doe - (365 * yoe + yoe / 4 - yoe / 100)
  let mp := (5 * doy + 2) / 153
  let d := doy - (153 * mp + 2) / 5 + 1
  let m := if mp < 10 then mp + 3 else mp - 9
  (if m ≤ 2 then y + 1 else y, m, d)

/-- Fractional-second part of the RFC3339Nano rendering: empty when the
nanosecond count is zero, otherwise a dot and the nanoseconds with
trailing zeros removed. -/
def rfc3339Frac (nanos : Nat) : String :=
  if nanos = 0 then ""
  else "." ++ String.mk (((pad9 nanos).data.reverse.dropWhile (· = '0')).reverse)

/-- `t.Format(time.RFC3339Nano)` for a UTC instant. -/
def rfc3339Nano (t : GoTime) : String :=
  let days := t.unixSec / 86400
  let sod := t.unixSec % 86400
  let ymd := civilFromDays days
  pad4 ymd.1 ++ "-" ++ pad2 ymd.2.1 ++ "-" ++ pad2 ymd.2.2 ++ "T" ++
    pad2 (sod / 3600) ++ ":" ++ pad2 ((sod / 60) % 60) ++ ":" ++ pad2 (sod % 60) ++
    rfc3339Frac t.nanos ++ "Z"

/-! ## Receipt service (`core/service.go`)

`Service.SubmitLog` validates the content, computes the server hash,
and returns the receipt. The request id is a v4 UUID in the source;
it is nondeterministic, so it is a parameter here. The wall clock and
the asynchronous hand-off to the batcher do not affect the embedded
result value.
-/

/-- `core.LogInput`. -/
structure LogInput where
  logContent : String := ""
  clientLogHash : String := ""
  clientSourceOrgID : String := ""
deriving DecidableEq, Repr, Inhabited

/-- `core.LogResult`, restricted to the fields the claims mention. -/
structure LogResult where
  requestID : String := ""
  serverLogHash : String := ""
deriving DecidableEq, Repr, Inhabited

/-- The error text of the empty-content failure. -/
def emptyContentMsg : String := "log_content cannot be empty"

/-- The error text of the hash-mismatch failure
(`client provided hash \x27%s\x27 does not match server calculated hash \x27%s\x27`). -/
def hashMismatchMsg (clientHash serverHash : String) : String :=
  "client provided hash \x27" ++ clientHash ++
    "\x27 does not match server calculated hash \x27" ++ serverHash ++ "\x27"

/-- `Service.SubmitLog`: reject empty content, compute the server hash,
reject a differing non-empty client hash, otherwise return the receipt. -/
def serviceSubmitLog (requestID : String) (input : LogInput) : Except String LogResult :=
  if input.logContent = "" then .error emptyContentMsg
  else
    let serverLogHash := sha256Hex input.logContent
    if input.clientLogHash ≠ "" ∧ input.clientLogHash ≠ serverLogHash then
      .error (hashMismatchMsg input.clientLogHash serverLogHash)
    else .ok { requestID := requestID, serverLogHash := serverLogHash }

/-! ## HTTP handler (`http/handler.go`)

`LogHandler.SubmitLog` checks the method, the content type, the declared
content length, decodes the body, rejects empty content, calls the
service, and maps a service error to a status code: 400 for the exact
empty-content text, 400 when the Go regexp
`client provided hash .* does not match` matches the error text
(unanchored; `.` does not match a newline), 500 otherwise.
-/

/-- First literal of the handler's mismatch regexp. -/
def mismatchLit1 : List Char := "client provided hash ".data

/-- Second literal of the handler's mismatch regexp. -/
def mismatchLit2 : List Char := " does not match".data

/-- Scan for `mismatchLit2` without crossing a newline
(the `.*` of the pattern cannot match `\n`). -/
def regexScanMid : List Char → Bool
  | [] => mismatchLit2.isPrefixOf []
  | c :: rest =>
    if mismatchLit2.isPrefixOf (c :: rest) then true
    else if c = '\n' then false
    else regexScanMid rest

/-- Does a match of the whole pattern start at this position? -/
def regexMatchAt (l : List Char) : Bool :=
  if mismatchLit1.isPrefixOf l then regexScanMid (l.drop mismatchLit1.length)
  else false

/-- Does the pattern match anywhere in the character list? -/
def regexHitAux : List Char → Bool
  | [] => regexMatchAt []
  | c :: rest => regexMatchAt (c :: rest) || regexHitAux rest

/-- `regexp.MatchString("client provided hash .* does not match", s)`. -/
def mismatchRegexHit (s : String) : Bool := regexHitAux s.data

/-- The decoded request body of `POST /v1/logs`. -/
structure ReqPayload where
  logContent : String := ""
  clientLogHash : String := ""
  clientSourceOrgID : String := ""
  clientTimestamp : String := ""
deriving DecidableEq, Repr, Inhabited

/-- An incoming HTTP request, with the JSON decode of the body given as
an outcome (`none` = malformed body). -/
structure HttpReq where
  method : String := "POST"
  contentType : String := "application/json"
  contentLength : Int := 0
  body : Option ReqPayload := none
  headerOrgID : String := ""
deriving DecidableEq, Repr, Inhabited

/-- What the handler did and answered. -/
structure HandlerOut where
  status : Nat
  decodeAttempted : Bool
  serviceCalled : Bool
  respStatusField : Option String
  respServerHash : Option String
deriving DecidableEq, Repr, Inhabited

/-- `LogHandler.SubmitLog`, in source order: method check (405),
content-type check (400), 10 MiB content-length check (413), body decode
(400 on failure), required-field check (400), service call, then the
error-to-status mapping and the 202 ACCEPTED success response. -/
def handleSubmitLog (req : HttpReq) (requestID : String) : HandlerOut :=
  if req.method ≠ "POST" then ⟨405, false, false, none, none⟩
  else if req.contentType ≠ "application/json" then ⟨400, false, false, none, none⟩
  else if req.contentLength > 10 * 1024 * 1024 then ⟨413, false, false, none, none⟩
  else
    match req.body with
    | none => ⟨400, true, false, none, none⟩
    | some p =>
      if p.logContent = "" then ⟨400, true, false, none, none⟩
      else
        let orgID := if req.headerOrgID ≠ "" then req.headerOrgID else p.clientSourceOrgID
        match serviceSubmitLog requestID
            { logContent := p.logContent, clientLogHash := p.clientLogHash,
              clientSourceOrgID := orgID } with
        | .error e =>
          let code : Nat :=
            if e = emptyContentMsg then 400
            else if mismatchRegexHit e then 400
            else 500
          ⟨code, true, true, none, none⟩
        | .ok r => ⟨202, true, true, some "ACCEPTED", some r.serverLogHash⟩

/-! ## Ingestion batcher (`core/batch_processor.go`)

The buffer and the bounded flush channel are explicit state. One point
deserves care: in `SubmitLog` the oversize-triggered flush is

```
select {
case bp.flushChan <- bp.getAndResetBuffer():
default:
    bp.logger.Printf("Flush channel full, will flush on next timer")
}
```

and Go evaluates the right-hand side of the send — `getAndResetBuffer()`,
which drains the buffer — once on entering the `select`, before choosing
a case. When the channel is full the `default` case runs with the buffer
already drained, and the drained value is dropped.
-/

/-- `batchEntry`: one buffered submission. -/
structure BatchEntry where
  input : LogInput := {}
  requestID : String := ""
deriving DecidableEq, Repr, Inhabited

/-- Batcher configuration: `batch_size` and `flush_channel_buffer`. -/
structure BPConfig where
  batchSize : Nat := 100
  chanCap : Nat := 100
deriving DecidableEq, Repr, Inhabited

/-- Batcher state: the mutex-guarded buffer and the queued flush tasks of
the bounded channel (oldest first). -/
structure BPState where
  buffer : List BatchEntry := []
  flushChan : List (List BatchEntry) := []
deriving DecidableEq, Repr, Inhabited

/-- `BatchProcessor.SubmitLog`: append the entry; when the buffer reaches
`batch_size`, drain it (`getAndResetBuffer` runs unconditionally, as the
evaluated send value of the `select`) and enqueue the drained batch if
the channel has room — otherwise the drained batch is dropped. -/
def bpSubmitLog (cfg : BPConfig) (st : BPState) (e : BatchEntry) : BPState :=
  let buffer1 := st.buffer ++ [e]
  if buffer1.length ≥ cfg.batchSize then
    let drained := buffer1
    if st.flushChan.length < cfg.chanCap then
      { buffer := [], flushChan := st.flushChan ++ [drained] }
    else
      { buffer := [], flushChan := st.flushChan }
  else
    { st with buffer := buffer1 }

/-- `flushIfNeeded` (the timer tick): drain a non-empty buffer into the
channel; when the channel is full, put the batch back at the head of the
buffer. -/
def bpFlushIfNeeded (cfg : BPConfig) (st : BPState) : BPState :=
  if st.buffer.isEmpty then st
  else if st.flushChan.length < cfg.chanCap then
    { buffer := [], flushChan := st.flushChan ++ [st.buffer] }
  else
    st

/-- The two external calls of the flush worker's `processBatch`. -/
inductive PEvent where
  | insertBatch (rows : List LogStatus)
  | publishBatch (msgs : List LogMessage)
deriving DecidableEq, Repr

/-- Outcomes of the flush worker's external calls. -/
structure PBEnv where
  insertResult : Except String Unit := .ok ()
  publishResult : Except String Unit := .ok ()
deriving Repr, Inhabited

/-- The state row `processBatch` builds for entry `i` of the batch at
wall-clock instant `t`: status RECEIVED, hash and org from the entry. -/
def rowOfEntry (e : BatchEntry) (t : GoTime) : LogStatus :=
  { requestID := e.requestID, logHash := e.input.clientLogHash,
    sourceOrgID := e.input.clientSourceOrgID, receivedTimestamp := t,
    status := .received }

/-- The queue message `processBatch` builds for entry `i` of the batch at
wall-clock instant `t`: `ReceivedTimestamp` is `time.Now().Format(time.RFC3339Nano)`. -/
def msgOfEntry (e : BatchEntry) (t : GoTime) : LogMessage :=
  { requestID := e.requestID, logContent := e.input.logContent,
    logHash := e.input.clientLogHash, sourceOrgID := e.input.clientSourceOrgID,
    receivedTimestamp := rfc3339Nano t }

/-- The state rows `processBatch` builds for a batch; entry `i` reads the
clock twice, at ticks `2*i` (row) and `2*i+1` (message). -/
def bpRows (batch : List BatchEntry) (clock : Nat → GoTime) : List LogStatus :=
  (List.range batch.length).map (fun i => rowOfEntry (batch.getD i {}) (clock (2 * i)))

/-- The queue messages `processBatch` builds for a batch. -/
def bpMsgs (batch : List BatchEntry) (clock : Nat → GoTime) : List LogMessage :=
  (List.range batch.length).map (fun i => msgOfEntry (batch.getD i {}) (clock (2 * i + 1)))

/-- `processBatch` itself: build rows and messages, bulk-insert the rows,
and only on insert success bulk-publish the messages. -/
def bpProcessBatch (batch : List BatchEntry) (clock : Nat → GoTime) (env : PBEnv) :
    List PEvent :=
  if batch.length = 0 then []
  else
    match env.insertResult with
    | .error _ => [.insertBatch (bpRows batch clock)]
    | .ok _ => [.insertBatch (bpRows batch clock), .publishBatch (bpMsgs batch clock)]

/-! ## Queue consumer (`internal/messaging/consumer`)

`KafkaConsumer.Consume` fetches one message and JSON-decodes it. The
fetch and the decode are outcomes here: the fetch either fails or yields
a raw value, and `unmarshal` stands for `json.Unmarshal` on that value.
-/

/-- What `Consume` returned and did: the message, whether a non-nil ack
callback was handed out, the error, and whether the offset was committed
during `Consume` itself. -/
structure ConsumeOut where
  msg : Option LogMessage := none
  ackGiven : Bool := false
  err : Option String := none
  committed : Bool := false
deriving DecidableEq, Repr, Inhabited

/-- `KafkaConsumer.Consume`: a fetch error is returned as is; a fetched
value that fails to decode is committed (so the partition is not blocked)
and reported as a deserialization error with no message and no ack
callback; a decoded message is returned with its ack callback. -/
def kafkaConsume (fetch : Except String (List Nat))
    (unmarshal : List Nat → Except String LogMessage) : ConsumeOut :=
  match fetch with
  | .error e => { err := some e }
  | .ok raw =>
    match unmarshal raw with
    | .error e =>
      { err := some ("message deserialization failed: " ++ e), committed := true }
    | .ok m => { msg := some m, ackGiven := true }

/-- One pass of the worker loop's consume branch over its batch state:
on a consume error the state is untouched and no batch is processed; on
a message it is appended, and a full batch is handed to processing. The
second component is the batch handed to `processAndAckBatch`, the only
place that mutates state rows. -/
def workerConsumeStep (batchSize : Nat) (pending : List LogMessage) (c : ConsumeOut) :
    List LogMessage × Option (List LogMessage) :=
  match c.err with
  | some _ => (pending, none)
  | none =>
    match c.msg with
    | none => (pending, none)
    | some m =>
      let pending1 := pending ++ [m]
      if pending1.length ≥ batchSize then ([], some pending1) else (pending1, none)

/-! ## Processing worker (`processing/worker.go`)

`handleBatch` drives a batch through claim → ledger → terminal writes;
`processAndAckBatch` then acknowledges every pending message with
`ack(err == nil)`. The store and ledger outcomes are inputs, and every
call is recorded as an event, in call order, so that "X before Y" claims
are statements about the event list.
-/

/-- The calls a worker batch makes, in order; `ack b` is one invocation
of a message's ack callback with success flag `b`. -/
inductive WEvent where
  | claimCall (requestIDs : List String)
  | ledgerCall (entries : List LogEntry)
  | markRetry (requestIDs : List String) (errorMessage : String)
  | markCompleted (completions : List CompletionRecord)
  | markFailed (failures : List FailureRecord)
  | ack (success : Bool)
deriving DecidableEq, Repr

/-- Outcomes of the store and ledger calls a worker batch can make. -/
structure WorkerEnv where
  claimResult : Except String (List (String × LogStatus)) := .ok []
  ledgerResult : Except String (BatchProof × List LogStatusInfo) := .ok ({}, [])
  retryResult : Except String Unit := .ok ()
  completedResult : Except String Unit := .ok ()
  failedResult : Except String Unit := .ok ()
deriving Repr, Inhabited

/-- What `handleBatch` returned and did: the returned error (`none` is
Go `nil`), the events in call order, and the completion/failure record
lists it built on the success path. -/
structure HandleOut where
  err : Option String := none
  events : List WEvent := []
  completions : List CompletionRecord := []
  failures : List FailureRecord := []
deriving DecidableEq, Repr, Inhabited

/-- The last message of the batch carrying this request id (`msgMap` is a
Go map written in batch order, so a later duplicate id wins). In the
source a missing id would be a nil dereference; the default value stands
for that unreachable case. -/
def lookupMsg (batch : List LogMessage) (reqID : String) : LogMessage :=
  batch.foldl (fun acc m => if m.requestID = reqID then m else acc) {}

/-- The result-vector entry for a log hash (`resultsMap` is a Go map
written in vector order, so a later duplicate hash wins). -/
def lookupResult (results : List LogStatusInfo) (h : String) : Option LogStatusInfo :=
  results.foldl (fun acc r => if r.logHash = h then some r else acc) none

/-- The ledger entry built for a claimed-PROCESSING row: hash, content,
org and timestamp come from the original queue message, not the row. -/
def entryOfMsg (m : LogMessage) : LogEntry :=
  { logHash := m.logHash, logContent := m.logContent,
    senderOrgID := m.sourceOrgID, timestamp := m.receivedTimestamp }

/-- The synthetic failure text for a hash missing from the result vector:
`Missing result for log_hash %s (TxID: %s)`. -/
def missingResultMsg (logHash txID : String) : String :=
  "Missing result for log_hash " ++ logHash ++ " (TxID: " ++ txID ++ ")"

/-- The failure text for a non-Success verdict:
`Contract failed: %s - %s`. -/
def contractFailedMsg (info : LogStatusInfo) : String :=
  "Contract failed: " ++ info.status.text ++ " - " ++ info.message

/-- The result-processing loop of `handleBatch`: resolve each claimed
PROCESSING row against the result vector by its log hash, appending a
completion for a Success verdict, a contract failure for any other
verdict, and a missing-result failure for an absent hash. -/
def resolveLoop (proof : BatchProof) (results : List LogStatusInfo) :
    List (String × LogStatus) → List CompletionRecord × List FailureRecord →
    List CompletionRecord × List FailureRecord
  | [], acc => acc
  | p :: rest, acc =>
    resolveLoop proof results rest
      (match lookupResult results p.2.logHash with
       | none =>
         (acc.1, acc.2 ++ [⟨p.1, missingResultMsg p.2.logHash proof.transactionID⟩])
       | some info =>
         match info.status with
         | .success =>
           (acc.1 ++ [⟨p.1, proof.transactionID, info.logHash, proof.blockHeight⟩], acc.2)
         | _ =>
           (acc.1, acc.2 ++ [⟨p.1, contractFailedMsg info⟩]))

/-- `Worker.handleBatch`: collect the non-empty request ids, claim the
batch, build ledger entries for the claimed-PROCESSING rows (FAILED rows
need no further action), return early when nothing is eligible, call the
ledger, and on a top-level ledger error mark the claimed ids for retry
and return the error; on ledger success resolve every claimed row,
issue the bulk completion and failure writes (their errors are only
logged), and return `nil`. -/
def handleBatch (batch : List LogMessage) (env : WorkerEnv) : HandleOut :=
  if batch.isEmpty then {}
  else
    let requestIDs := (batch.filter (fun m => m.requestID ≠ "")).map (fun m => m.requestID)
    if requestIDs.isEmpty then {}
    else
      match env.claimResult with
      | .error e =>
        { err := some ("DB error: GetAndMarkBatchAsProcessing failed: " ++ e),
          events := [.claimCall requestIDs] }
      | .ok tasks =>
        let validTasks := tasks.filter (fun p => p.2.status = .processing)
        let validEntries := validTasks.map (fun p => entryOfMsg (lookupMsg batch p.1))
        if validEntries.isEmpty then
          { events := [.claimCall requestIDs] }
        else
          match env.ledgerResult with
          | .error e =>
            { err := some ("SubmitLogsBatch failed: " ++ e),
              events := [.claimCall requestIDs, .ledgerCall validEntries,
                .markRetry (validTasks.map (fun p => p.1)) e] }
          | .ok (proof, results) =>
            let resolved := resolveLoop proof results validTasks ([], [])
            { err := none,
              events := [.claimCall requestIDs, .ledgerCall validEntries] ++
                (if resolved.1.isEmpty then [] else [.markCompleted resolved.1]) ++
                (if resolved.2.isEmpty then [] else [.markFailed resolved.2]),
              completions := resolved.1, failures := resolved.2 }

/-- `Worker.processAndAckBatch`: run `handleBatch`, then invoke every
pending message's ack callback — with `false` when it returned an error,
with `true` when it returned `nil`. -/
def processAndAckBatch (batch : List LogMessage) (env : WorkerEnv) : List WEvent :=
  (handleBatch batch env).events ++
    List.replicate batch.length (WEvent.ack (handleBatch batch env).err.isNone)

/-! ## Spec-side resolution of one claimed row

`completionOf`/`failureOf` state, for one claimed-PROCESSING row, the
per-entry resolution the specification describes: a `Success` verdict
gives a completion with the batch's transaction id and block height, any
other verdict gives a failure with the contract message, and a hash
absent from the result vector gives a failure with the synthetic
missing-result message. The theorems below compare the worker's loop
against these. -/

/-- The completion record (if any) one claimed row resolves to. -/
def completionOf (proof : BatchProof) (results : List LogStatusInfo)
    (p : String × LogStatus) : Option CompletionRecord :=
  match lookupResult results p.2.logHash with
  | none => none
  | some info =>
    match info.status with
    | .success => some ⟨p.1, proof.transactionID, info.logHash, proof.blockHeight⟩
    | _ => none

/-- The failure record (if any) one claimed row resolves to. -/
def failureOf (proof : BatchProof) (results : List LogStatusInfo)
    (p : String × LogStatus) : Option FailureRecord :=
  match lookupResult results p.2.logHash with
  | none => some ⟨p.1, missingResultMsg p.2.logHash proof.transactionID⟩
  | some info =>
    match info.status with
    | .success => none
    | _ => some ⟨p.1, contractFailedMsg info⟩

/-! ## Concrete runs used by counterexamples and witnesses -/

/-- A queue message for request `r1`. -/
def exMsg1 : LogMessage :=
  { requestID := "r1", logContent := "payload-A", logHash := "h1",
    sourceOrgID := "org-1", receivedTimestamp := "100" }

/-- A state row for `r1` claimed into PROCESSING. -/
def exTask1 : LogStatus :=
  { requestID := "r1", logHash := "h1", sourceOrgID := "org-1",
    status := .processing, retryCount := 1 }

/-- A run where the ledger succeeds for `r1` but the bulk completion
write fails: the batch is still positively acknowledged. -/
def c1Env : WorkerEnv :=
  { claimResult := .ok [("r1", exTask1)],
    ledgerResult := .ok (⟨"tx-1", 7⟩, [⟨"h1", .success, "Processed successfully"⟩]),
    completedResult := .error "connection reset by peer" }

/-- Ingestion entries for the batcher runs. -/
def exEntry0 : BatchEntry := ⟨⟨"log zero", "hash0", "orgA"⟩, "q0"⟩

/-- A second ingestion entry. -/
def exEntry1 : BatchEntry := ⟨⟨"log one", "hash1", "orgB"⟩, "q1"⟩

/-- Batcher configuration `batch_size = 1`, `flush_channel_buffer = 1`. -/
def c2Cfg : BPConfig := ⟨1, 1⟩

/-- Batcher state whose flush channel is full (capacity 1, one queued
batch) and whose buffer is empty. -/
def c2St : BPState := ⟨[], [[exEntry0]]⟩

/-- A run of the worker where the ledger call fails at the transport
level. -/
def c4Env : WorkerEnv :=
  { claimResult := .ok [("r1", exTask1)],
    ledgerResult := .error "rpc timeout" }

/-- The `r1` row as `claim_batch` returns it once the retry cap forced
it to FAILED. -/
def exTask1Failed : LogStatus :=
  { exTask1 with status := .failed, errorMessage := "max retries exceeded" }

/-- A claim result where the only returned row was promoted to FAILED
(retry cap reached), so nothing is eligible for the ledger. -/
def c7Env : WorkerEnv :=
  { claimResult := .ok [("r1", exTask1Failed)] }

/-- A ledger success whose result vector resolves three rows three ways:
`h1` succeeds, `h2` is a duplicate, and `h3` is absent. -/
def c5Env : WorkerEnv :=
  { claimResult := .ok
      [("r1", exTask1),
       ("r2", { requestID := "r2", logHash := "h2", status := .processing }),
       ("r3", { requestID := "r3", logHash := "h3", status := .processing })],
    ledgerResult := .ok (⟨"tx-9", 12⟩,
      [⟨"h1", .success, "Processed successfully"⟩,
       ⟨"h2", .skippedDuplicate, "Skipped duplicate log hash"⟩]) }

/-- Messages matching the three claimed rows of `c5Env`. -/
def c5Batch : List LogMessage :=
  [exMsg1,
   { requestID := "r2", logContent := "payload-A", logHash := "h2",
     sourceOrgID := "org-2", receivedTimestamp := "101" },
   { requestID := "r3", logContent := "payload-C", logHash := "h3",
     sourceOrgID := "org-3", receivedTimestamp := "102" }]

/-- An oversized request whose content type is not `application/json`. -/
def c10Req : HttpReq :=
  { method := "POST", contentType := "text/plain",
    contentLength := 10 * 1024 * 1024 + 1, body := none }

/-- An oversized well-typed request. -/
def c10OkTypeReq : HttpReq :=
  { method := "POST", contentType := "application/json",
    contentLength := 10 * 1024 * 1024 + 1,
    body := some { logContent := "x" } }

/-- A submission whose client hash mismatches and spans a newline. -/
def c6Req : HttpReq :=
  { method := "POST", contentType := "application/json", contentLength := 64,
    body := some { logContent := "a", clientLogHash := "x\ny" } }

/-- A submission whose client hash mismatches without a newline. -/
def c6PlainPayload : ReqPayload := { logContent := "a", clientLogHash := "beef" }

/-- The well-formed request carrying `c6PlainPayload`. -/
def c6PlainReq : HttpReq :=
  { method := "POST", contentType := "application/json", contentLength := 64,
    body := some c6PlainPayload }

set_option maxRecDepth 10000

/-! ## Validation of the hash model -/

/-- The SHA-256 model reproduces the specification's own test vector for
`"hello"`. -/
theorem sha256Hex_hello :
    sha256Hex "hello" =
      "2cf24dba5fb0a30e26e83b2ac5b9e29e1b161e5c1fa7425e73043362938b9824" := by
  decide

/-! ## Helper lemmas -/

/-- `resolveLoop` appends, to whatever is already accumulated, exactly
the per-row resolutions `completionOf` / `failureOf` describe. -/
theorem resolveLoop_eq (proof : BatchProof) (results : List LogStatusInfo) :
    ∀ (tasks : List (String × LogStatus)) (c0 : List CompletionRecord)
      (f0 : List FailureRecord),
      resolveLoop proof results tasks (c0, f0) =
        (c0 ++ tasks.filterMap (completionOf proof results),
         f0 ++ tasks.filterMap (failureOf proof results)) := by
  intro tasks
  induction tasks with
  | nil => intro c0 f0; simp [resolveLoop]
  | cons p rest ih =>
    intro c0 f0
    rcases h : lookupResult results p.2.logHash with _ | info
    · simp [resolveLoop, h, ih, completionOf, failureOf, List.filterMap_cons]
    · cases hs : info.status <;>
        simp [resolveLoop, h, hs, ih, completionOf, failureOf, List.filterMap_cons]

/-- Every claimed-PROCESSING row resolves to a completion or to a
failure record carrying its request id. -/
theorem resolved_covers (proof : BatchProof) (results : List LogStatusInfo)
    (tasks : List (String × LogStatus)) (p : String × LogStatus) (hp : p ∈ tasks) :
    (∃ c ∈ tasks.filterMap (completionOf proof results), c.requestID = p.1) ∨
    (∃ f ∈ tasks.filterMap (failureOf proof results), f.requestID = p.1) := by
  rcases h : lookupResult results p.2.logHash with _ | info
  · right
    exact ⟨⟨p.1, missingResultMsg p.2.logHash proof.transactionID⟩,
      List.mem_filterMap.mpr ⟨p, hp, by simp [failureOf, h]⟩, rfl⟩
  · cases hs : info.status
    case success =>
      left
      exact ⟨⟨p.1, proof.transactionID, info.logHash, proof.blockHeight⟩,
        List.mem_filterMap.mpr ⟨p, hp, by simp [completionOf, h, hs]⟩, rfl⟩
    all_goals
      right
      exact ⟨⟨p.1, contractFailedMsg info⟩,
        List.mem_filterMap.mpr ⟨p, hp, by simp [failureOf, h, hs]⟩, rfl⟩

/-- Unfolding of `handleBatch` on the ledger-success path. -/
theorem handleBatch_ledger_ok (batch : List LogMessage) (env : WorkerEnv)
    (tasks : List (String × LogStatus)) (proof : BatchProof)
    (results : List LogStatusInfo)
    (hclaim : env.claimResult = .ok tasks)
    (hledger : env.ledgerResult = .ok (proof, results))
    (hvalid : tasks.filter (fun p => p.2.status = .processing) ≠ [])
    (hids : batch.filter (fun m => m.requestID ≠ "") ≠ []) :
    handleBatch batch env =
      { err := none,
        events :=
          [.claimCall ((batch.filter (fun m => m.requestID ≠ "")).map (fun m => m.requestID)),
           .ledgerCall ((tasks.filter (fun p => p.2.status = .processing)).map
             (fun p => entryOfMsg (lookupMsg batch p.1)))] ++
          (if ((tasks.filter (fun p => p.2.status = .processing)).filterMap
                (completionOf proof results)).isEmpty then []
           else [.markCompleted ((tasks.filter (fun p => p.2.status = .processing)).filterMap
                (completionOf proof results))]) ++
          (if ((tasks.filter (fun p => p.2.status = .processing)).filterMap
                (failureOf proof results)).isEmpty then []
           else [.markFailed ((tasks.filter (fun p => p.2.status = .processing)).filterMap
                (failureOf proof results))]),
        completions := (tasks.filter (fun p => p.2.status = .processing)).filterMap
          (completionOf proof results),
        failures := (tasks.filter (fun p => p.2.status = .processing)).filterMap
          (failureOf proof results) } := by
  have hb : batch.isEmpty = false := by
    cases batch with
    | nil => simp at hids
    | cons _ _ => rfl
  have hreq : ((batch.filter (fun m => m.requestID ≠ "")).map
      (fun m => m.requestID)).isEmpty = false := by
    simp only [List.isEmpty_eq_false, ne_eq, List.map_eq_nil_iff]
    exact hids
  have hval : ((tasks.filter (fun p => p.2.status = .processing)).map
      (fun p => entryOfMsg (lookupMsg batch p.1))).isEmpty = false := by
    simp only [List.isEmpty_eq_false, ne_eq, List.map_eq_nil_iff]
    exact hvalid
  simp only [handleBatch, hb, Bool.false_eq_true, if_false, hreq, hclaim, hval, hledger,
    resolveLoop_eq, List.nil_append]

/-! ## C1 — ack only after the terminal writes committed -/

/-- C1, counterexample: a run in which the ledger call succeeds, the bulk
completion write is issued but fails (`completedResult` is an error), and
the batch is nevertheless positively acknowledged — so an `ack(true)` is
issued although the terminal transition did not successfully commit,
refuting the claim as stated. -/
theorem C1_counterexample :
    processAndAckBatch [exMsg1] c1Env =
      [WEvent.claimCall ["r1"],
       WEvent.ledgerCall [⟨"h1", "payload-A", "org-1", "100"⟩],
       WEvent.markCompleted [⟨"r1", "tx-1", "h1", 7⟩],
       WEvent.ack true] ∧
    c1Env.completedResult = Except.error "connection reset by peer" :=
  ⟨by decide, rfl⟩

/-- C1, amended: on the ledger-success path the worker issues the
`mark_completed_batch` / `mark_failed_batch` calls covering every
resolved row strictly before invoking any ack, and then acknowledges
every pending message positively — whether or not those bulk writes
succeeded (a failed write is only logged and does not prevent the
positive ack). -/
theorem C1_ack_after_terminal_writes (batch : List LogMessage) (env : WorkerEnv)
    (tasks : List (String × LogStatus)) (proof : BatchProof)
    (results : List LogStatusInfo)
    (hclaim : env.claimResult = .ok tasks)
    (hledger : env.ledgerResult = .ok (proof, results))
    (hvalid : tasks.filter (fun p => p.2.status = .processing) ≠ [])
    (hids : batch.filter (fun m => m.requestID ≠ "") ≠ []) :
    (handleBatch batch env).err = none ∧
    processAndAckBatch batch env =
      (handleBatch batch env).events ++ List.replicate batch.length (WEvent.ack true) ∧
    (∀ b : Bool, WEvent.ack b ∉ (handleBatch batch env).events) ∧
    ((handleBatch batch env).completions ≠ [] →
      WEvent.markCompleted (handleBatch batch env).completions ∈
        (handleBatch batch env).events) ∧
    ((handleBatch batch env).failures ≠ [] →
      WEvent.markFailed (handleBatch batch env).failures ∈
        (handleBatch batch env).events) ∧
    (∀ p ∈ tasks.filter (fun p => p.2.status = .processing),
      (∃ c ∈ (handleBatch batch env).completions, c.requestID = p.1) ∨
      (∃ f ∈ (handleBatch batch env).failures, f.requestID = p.1)) := by
  rw [handleBatch_ledger_ok batch env tasks proof results hclaim hledger hvalid hids]
  refine ⟨rfl, ?_, ?_, ?_, ?_, ?_⟩
  · simp [processAndAckBatch,
      handleBatch_ledger_ok batch env tasks proof results hclaim hledger hvalid hids]
  · intro b
    split <;> split <;> simp
  · intro h
    simp only [List.isEmpty_eq_false] at *
    simp [h]
  · intro h
    simp only [List.isEmpty_eq_false] at *
    simp [h]
  · intro p hp
    exact resolved_covers proof results _ p hp

/-- C1, witness for the amended theorem at the concrete run `c1Env`. -/
theorem C1_witness :
    (handleBatch [exMsg1] c1Env).err = none ∧
    processAndAckBatch [exMsg1] c1Env =
      (handleBatch [exMsg1] c1Env).events ++
        List.replicate 1 (WEvent.ack true) := by
  have h := C1_ack_after_terminal_writes [exMsg1] c1Env [("r1", exTask1)]
    ⟨"tx-1", 7⟩ [⟨"h1", .success, "Processed successfully"⟩]
    rfl rfl (by decide) (by decide)
  exact ⟨h.1, h.2.1⟩

/-! ## C4 — whole-batch ledger failure: retry marks and negative acks -/

/-- C4: when the ledger call returns a top-level error, the worker calls
`mark_for_retry` with exactly the request ids of the rows claimed into
PROCESSING and the error message, writes no completion or failure
records, and negatively acknowledges every pending message. -/
theorem C4_ledger_error_retries_and_nacks (batch : List LogMessage)
    (env : WorkerEnv) (tasks : List (String × LogStatus)) (e : String)
    (hclaim : env.claimResult = .ok tasks)
    (hledger : env.ledgerResult = .error e)
    (hvalid : tasks.filter (fun p => p.2.status = .processing) ≠ [])
    (hids : batch.filter (fun m => m.requestID ≠ "") ≠ []) :
    processAndAckBatch batch env =
      [WEvent.claimCall ((batch.filter (fun m => m.requestID ≠ "")).map
         (fun m => m.requestID)),
       WEvent.ledgerCall ((tasks.filter (fun p => p.2.status = .processing)).map
         (fun p => entryOfMsg (lookupMsg batch p.1))),
       WEvent.markRetry ((tasks.filter (fun p => p.2.status = .processing)).map
         (fun p => p.1)) e] ++
      List.replicate batch.length (WEvent.ack false) := by
  have hb : batch.isEmpty = false := by
    cases batch with
    | nil => simp at hids
    | cons _ _ => rfl
  have hreq : ((batch.filter (fun m => m.requestID ≠ "")).map
      (fun m => m.requestID)).isEmpty = false := by
    simp only [List.isEmpty_eq_false, ne_eq, List.map_eq_nil_iff]
    exact hids
  have hval : ((tasks.filter (fun p => p.2.status = .processing)).map
      (fun p => entryOfMsg (lookupMsg batch p.1))).isEmpty = false := by
    simp only [List.isEmpty_eq_false, ne_eq, List.map_eq_nil_iff]
    exact hvalid
  have hEq : handleBatch batch env =
      { err := some ("SubmitLogsBatch failed: " ++ e),
        events :=
          [.claimCall ((batch.filter (fun m => m.requestID ≠ "")).map
             (fun m => m.requestID)),
           .ledgerCall ((tasks.filter (fun p => p.2.status = .processing)).map
             (fun p => entryOfMsg (lookupMsg batch p.1))),
           .markRetry ((tasks.filter (fun p => p.2.status = .processing)).map
             (fun p => p.1)) e] } := by
    simp only [handleBatch, hb, Bool.false_eq_true, if_false, hreq, hclaim, hval, hledger]
  rw [processAndAckBatch, hEq]
  rfl

/-- C4, witness at the concrete run `c4Env`. -/
theorem C4_witness :
    processAndAckBatch [exMsg1] c4Env =
      [WEvent.claimCall ["r1"],
       WEvent.ledgerCall [⟨"h1", "payload-A", "org-1", "100"⟩],
       WEvent.markRetry ["r1"] "rpc timeout"] ++
      List.replicate 1 (WEvent.ack false) := by
  have h := C4_ledger_error_retries_and_nacks [exMsg1] c4Env [("r1", exTask1)]
    "rpc timeout" rfl rfl (by decide) (by decide)
  simpa using h

/-! ## C7 — nothing eligible: positive acks without a ledger call -/

/-- C7: when `claim_batch` succeeds and returns no PROCESSING row (every
row was absent, already terminal, or promoted to FAILED at claim time),
the worker's trace is the claim call followed only by positive acks — no
ledger call and no completion, failure or retry write. -/
theorem C7_no_eligible_rows_acks_positively (batch : List LogMessage)
    (env : WorkerEnv) (tasks : List (String × LogStatus))
    (hclaim : env.claimResult = .ok tasks)
    (hnone : ∀ p ∈ tasks, p.2.status ≠ .processing)
    (hids : batch.filter (fun m => m.requestID ≠ "") ≠ []) :
    processAndAckBatch batch env =
      WEvent.claimCall ((batch.filter (fun m => m.requestID ≠ "")).map
        (fun m => m.requestID)) ::
      List.replicate batch.length (WEvent.ack true) := by
  have hb : batch.isEmpty = false := by
    cases batch with
    | nil => simp at hids
    | cons _ _ => rfl
  have hreq : ((batch.filter (fun m => m.requestID ≠ "")).map
      (fun m => m.requestID)).isEmpty = false := by
    simp only [List.isEmpty_eq_false, ne_eq, List.map_eq_nil_iff]
    exact hids
  have hfil : tasks.filter (fun p => p.2.status = .processing) = [] := by
    rw [List.filter_eq_nil_iff]
    intro p hp
    simp [hnone p hp]
  have hEq : handleBatch batch env =
      { err := none,
        events := [.claimCall ((batch.filter (fun m => m.requestID ≠ "")).map
          (fun m => m.requestID))] } := by
    simp only [handleBatch, hb, Bool.false_eq_true, if_false, hreq, hclaim, hfil,
      List.map_nil, List.isEmpty_nil, if_true]
  rw [processAndAckBatch, hEq]
  rfl

/-- C7, witness at the concrete run `c7Env` (the only returned row was
promoted to FAILED at claim time). -/
theorem C7_witness :
    processAndAckBatch [exMsg1] c7Env =
      WEvent.claimCall ["r1"] :: List.replicate 1 (WEvent.ack true) := by
  have h := C7_no_eligible_rows_acks_positively [exMsg1] c7Env
    [("r1", exTask1Failed)] rfl (by decide) (by decide)
  simpa using h

/-! ## C5 — per-entry resolution on ledger success -/

/-- C5: on a successful ledger call every claimed-PROCESSING row is
resolved from the result vector by its log hash: the completion list is
exactly the rows whose verdict is `Success` (carrying the batch's
transaction id and block height), and the failure list is exactly the
rows with a non-`Success` verdict (carrying the ledger's message) or
with no result entry (carrying the synthetic missing-result message
naming the log hash and the transaction id). -/
theorem C5_per_entry_resolution (batch : List LogMessage) (env : WorkerEnv)
    (tasks : List (String × LogStatus)) (proof : BatchProof)
    (results : List LogStatusInfo)
    (hclaim : env.claimResult = .ok tasks)
    (hledger : env.ledgerResult = .ok (proof, results))
    (hvalid : tasks.filter (fun p => p.2.status = .processing) ≠ [])
    (hids : batch.filter (fun m => m.requestID ≠ "") ≠ []) :
    (handleBatch batch env).completions =
      (tasks.filter (fun p => p.2.status = .processing)).filterMap
        (completionOf proof results) ∧
    (handleBatch batch env).failures =
      (tasks.filter (fun p => p.2.status = .processing)).filterMap
        (failureOf proof results) ∧
    (∀ p info, lookupResult results p.2.logHash = some info →
      info.status = .success →
      completionOf proof results p =
        some ⟨p.1, proof.transactionID, info.logHash, proof.blockHeight⟩ ∧
      failureOf proof results p = none) ∧
    (∀ p info, lookupResult results p.2.logHash = some info →
      info.status ≠ .success →
      completionOf proof results p = none ∧
      failureOf proof results p = some ⟨p.1, contractFailedMsg info⟩) ∧
    (∀ p : String × LogStatus, lookupResult results p.2.logHash = none →
      completionOf proof results p = none ∧
      failureOf proof results p =
        some ⟨p.1, missingResultMsg p.2.logHash proof.transactionID⟩) := by
  rw [handleBatch_ledger_ok batch env tasks proof results hclaim hledger hvalid hids]
  refine ⟨rfl, rfl, ?_, ?_, ?_⟩
  · intro p info h hs
    simp [completionOf, failureOf, h, hs]
  · intro p info h hs
    cases hst : info.status
    case success => exact absurd hst hs
    all_goals simp [completionOf, failureOf, h, hst]
  · intro p h
    simp [completionOf, failureOf, h]

/-- C5, witness at the concrete run `c5Env`: `h1` completes with the
batch proof, `h2` fails with the duplicate message, `h3` fails with the
synthetic missing-result message. -/
theorem C5_witness :
    (handleBatch c5Batch c5Env).completions = [⟨"r1", "tx-9", "h1", 12⟩] ∧
    (handleBatch c5Batch c5Env).failures =
      [⟨"r2", "Contract failed: SkippedDuplicate - Skipped duplicate log hash"⟩,
       ⟨"r3", "Missing result for log_hash h3 (TxID: tx-9)"⟩] := by
  have h := C5_per_entry_resolution c5Batch c5Env
    [("r1", exTask1),
     ("r2", { requestID := "r2", logHash := "h2", status := .processing }),
     ("r3", { requestID := "r3", logHash := "h3", status := .processing })]
    ⟨"tx-9", 12⟩
    [⟨"h1", .success, "Processed successfully"⟩,
     ⟨"h2", .skippedDuplicate, "Skipped duplicate log hash"⟩]
    rfl rfl (by decide) (by decide)
  refine ⟨h.1.trans (by decide), h.2.1.trans (by decide)⟩

/-! ## C2 — oversize-triggered flush with a full channel -/

/-- C2: with `batch_size = 1` and a full flush channel of capacity 1,
submitting a record triggers the oversize flush; `getAndResetBuffer` is
evaluated (and drains the buffer) before the `select` falls into its
`default` case, so the submitted record ends up neither in the buffer
nor in any queued batch — the accepted record is discarded, not merged
back for the next timer tick. -/
theorem C2_oversize_flush_drops_record :
    bpSubmitLog c2Cfg c2St exEntry1 = ⟨[], [[exEntry0]]⟩ ∧
    exEntry1 ∉ (bpSubmitLog c2Cfg c2St exEntry1).buffer ∧
    (∀ b ∈ (bpSubmitLog c2Cfg c2St exEntry1).flushChan, exEntry1 ∉ b) ∧
    bpFlushIfNeeded c2Cfg (bpSubmitLog c2Cfg c2St exEntry1) =
      bpSubmitLog c2Cfg c2St exEntry1 := by
  decide

/-! ## C3 — publish only after a successful insert -/

/-- C3: the flush worker bulk-inserts the batch's rows — all at status
RECEIVED and with the batch's request ids — and publishes the batch's
queue messages only after that insert succeeded; when the insert fails
nothing is published, so no queue message can reference a row that was
not inserted. -/
theorem C3_insert_before_publish (batch : List BatchEntry) (clock : Nat → GoTime)
    (env : PBEnv) (hne : batch ≠ []) :
    ((∀ er, env.insertResult = Except.error er →
       bpProcessBatch batch clock env = [PEvent.insertBatch (bpRows batch clock)]) ∧
     (env.insertResult = Except.ok () →
       bpProcessBatch batch clock env =
         [PEvent.insertBatch (bpRows batch clock),
          PEvent.publishBatch (bpMsgs batch clock)])) ∧
    (∀ r ∈ bpRows batch clock, r.status = StoreStatus.received) ∧
    (bpMsgs batch clock).map (fun m => m.requestID) =
      (bpRows batch clock).map (fun r => r.requestID) := by
  have hlen : (batch.length = 0) = False := by
    simp [List.length_eq_zero, hne]
  refine ⟨⟨?_, ?_⟩, ?_, ?_⟩
  · intro er her
    simp [bpProcessBatch, hlen, her]
  · intro hok
    simp [bpProcessBatch, hlen, hok]
  · intro r hr
    rcases List.mem_map.mp hr with ⟨i, _, rfl⟩
    rfl
  · simp [bpMsgs, bpRows, msgOfEntry, rowOfEntry]

/-- C3, witness: a two-entry batch with a successful insert, evaluated
at a constant clock. -/
theorem C3_witness :
    bpProcessBatch [exEntry0, exEntry1] (fun _ => ⟨86400, 0⟩) {} =
      [PEvent.insertBatch (bpRows [exEntry0, exEntry1] (fun _ => ⟨86400, 0⟩)),
       PEvent.publishBatch (bpMsgs [exEntry0, exEntry1] (fun _ => ⟨86400, 0⟩))] :=
  (C3_insert_before_publish [exEntry0, exEntry1] (fun _ => ⟨86400, 0⟩) {}
    (by decide)).1.2 rfl

/-! ## C8 — the published ReceivedTimestamp format -/

/-- C8, counterexample: for the instant 86400 s after the epoch the
batcher publishes `ReceivedTimestamp = "1970-01-02T00:00:00Z"` — the
RFC3339Nano rendering — which is not the unix-second string `"86400"`
of that instant, refuting the claim as stated. -/
theorem C8_counterexample :
    bpProcessBatch [exEntry0] (fun _ => ⟨86400, 0⟩) {} =
      [PEvent.insertBatch [rowOfEntry exEntry0 ⟨86400, 0⟩],
       PEvent.publishBatch [msgOfEntry exEntry0 ⟨86400, 0⟩]] ∧
    (msgOfEntry exEntry0 ⟨86400, 0⟩).receivedTimestamp = "1970-01-02T00:00:00Z" ∧
    toString (86400 : Nat) = "86400" ∧
    (msgOfEntry exEntry0 ⟨86400, 0⟩).receivedTimestamp ≠ "86400" := by
  refine ⟨by decide, by decide, rfl, by decide⟩

/-- C8, amended: every queue message the batcher publishes carries, in
`ReceivedTimestamp`, the RFC3339Nano rendering (Go
`time.Now().Format(time.RFC3339Nano)`) of the wall clock read for that
entry — not a unix-second string. -/
theorem C8_timestamp_is_rfc3339nano (batch : List BatchEntry)
    (clock : Nat → GoTime) (env : PBEnv)
    (hok : env.insertResult = Except.ok ()) (hne : batch ≠ []) :
    bpProcessBatch batch clock env =
      [PEvent.insertBatch (bpRows batch clock),
       PEvent.publishBatch (bpMsgs batch clock)] ∧
    ∀ i < batch.length,
      (bpMsgs batch clock).getD i {} =
        { requestID := (batch.getD i {}).requestID,
          logContent := (batch.getD i {}).input.logContent,
          logHash := (batch.getD i {}).input.clientLogHash,
          sourceOrgID := (batch.getD i {}).input.clientSourceOrgID,
          receivedTimestamp := rfc3339Nano (clock (2 * i + 1)) } := by
  refine ⟨(C3_insert_before_publish batch clock env hne).1.2 hok, ?_⟩
  intro i hi
  simp [bpMsgs, msgOfEntry, List.getD_eq_getElem?_getD, List.getElem?_map,
    List.getElem?_range, hi]

/-- C8, witness for the amended theorem. -/
theorem C8_witness :
    bpProcessBatch [exEntry0] (fun _ => ⟨86400, 0⟩) {} =
      [PEvent.insertBatch (bpRows [exEntry0] (fun _ => ⟨86400, 0⟩)),
       PEvent.publishBatch (bpMsgs [exEntry0] (fun _ => ⟨86400, 0⟩))] :=
  (C8_timestamp_is_rfc3339nano [exEntry0] (fun _ => ⟨86400, 0⟩) {}
    rfl (by decide)).1

/-! ## C9 — malformed queue payloads -/

/-- C9: when the fetched bytes fail to deserialize, `Consume` commits
the offset (so the partition is not blocked) and returns a
deserialization error with no message and no ack callback; the worker
loop, on such a consume error, leaves its pending batch untouched and
hands nothing to batch processing, so no state row is mutated for that
message. -/
theorem C9_malformed_payload_committed (raw : List Nat)
    (unmarshal : List Nat → Except String LogMessage) (e : String)
    (hdecode : unmarshal raw = Except.error e)
    (batchSize : Nat) (pending : List LogMessage) :
    kafkaConsume (Except.ok raw) unmarshal =
      { msg := none, ackGiven := false,
        err := some ("message deserialization failed: " ++ e), committed := true } ∧
    workerConsumeStep batchSize pending (kafkaConsume (Except.ok raw) unmarshal) =
      (pending, none) := by
  constructor
  · simp [kafkaConsume, hdecode]
  · simp [kafkaConsume, hdecode, workerConsumeStep]

/-- C9, witness: a concrete unparsable payload. -/
theorem C9_witness :
    kafkaConsume (Except.ok [123, 125])
        (fun _ => Except.error "invalid character") =
      { msg := none, ackGiven := false,
        err := some ("message deserialization failed: " ++ "invalid character"),
        committed := true } ∧
    workerConsumeStep 100 [] (kafkaConsume (Except.ok [123, 125])
        (fun _ => Except.error "invalid character")) = ([], none) :=
  C9_malformed_payload_committed [123, 125] (fun _ => Except.error "invalid character")
    "invalid character" rfl 100 []

/-! ## C10 — the 10 MiB request-size limit -/

/-- C10, counterexample: an oversized POST whose content type is not
`application/json` is rejected by the earlier content-type check with
400, not 413, refuting the claim as stated for such requests. -/
theorem C10_counterexample :
    c10Req.contentLength > 10 * 1024 * 1024 ∧
    handleSubmitLog c10Req "rid-10" = ⟨400, false, false, none, none⟩ ∧
    (handleSubmitLog c10Req "rid-10").status ≠ 413 := by
  refine ⟨by decide, by decide, by decide⟩

/-- C10, amended: every POST with content type `application/json` whose
declared content length exceeds 10 MiB is answered 413 before the body
is decoded and before the service is invoked — no receipt is issued and
nothing is enqueued. -/
theorem C10_oversize_rejected_413 (req : HttpReq) (requestID : String)
    (hm : req.method = "POST") (hct : req.contentType = "application/json")
    (hlen : req.contentLength > 10 * 1024 * 1024) :
    handleSubmitLog req requestID = ⟨413, false, false, none, none⟩ := by
  unfold handleSubmitLog
  rw [if_neg (by simp [hm]), if_neg (by simp [hct]), if_pos hlen]

/-- C10, witness for the amended theorem at a concrete request. -/
theorem C10_witness :
    handleSubmitLog c10OkTypeReq "rid-10b" = ⟨413, false, false, none, none⟩ :=
  C10_oversize_rejected_413 c10OkTypeReq "rid-10b" rfl rfl (by decide)

/-! ## C6 — submit validation and its HTTP surface

The handler classifies a service error as a hash mismatch with the Go
regexp `client provided hash .* does not match`, whose `.` does not
match a newline. The lemmas below show the matcher accepts every
mismatch message whose client hash is newline-free.
-/

/-- A list starting with the second literal is accepted by the scanner. -/
theorem regexScanMid_of_prefix (l : List Char)
    (h : mismatchLit2.isPrefixOf l = true) : regexScanMid l = true := by
  cases l with
  | nil => simpa [regexScanMid] using h
  | cons c rest => simp [regexScanMid, h]

/-- The scanner may step over any non-newline character. -/
theorem regexScanMid_cons_of (c : Char) (rest : List Char) (hc : c ≠ '\n')
    (h : regexScanMid rest = true) : regexScanMid (c :: rest) = true := by
  by_cases hp : mismatchLit2.isPrefixOf (c :: rest)
  · simp [regexScanMid, hp]
  · simp [regexScanMid, hp, hc, h]

/-- The scanner accepts any newline-free middle followed by the second
literal. -/
theorem regexScanMid_mid (m tail : List Char) (hm : '\n' ∉ m) :
    regexScanMid (m ++ (mismatchLit2 ++ tail)) = true := by
  induction m with
  | nil =>
    apply regexScanMid_of_prefix
    rw [List.isPrefixOf_iff_prefix]
    exact List.prefix_append _ _
  | cons c m ih =>
    have hc : c ≠ '\n' := fun h => hm (by rw [h]; exact List.mem_cons_self _ _)
    have hm' : '\n' ∉ m := fun h => hm (List.mem_cons_of_mem _ h)
    exact regexScanMid_cons_of c _ hc (ih hm')

/-- A match starts wherever the first literal starts. -/
theorem regexMatchAt_lit1 (rest : List Char) (h : regexScanMid rest = true) :
    regexMatchAt (mismatchLit1 ++ rest) = true := by
  have hp : mismatchLit1.isPrefixOf (mismatchLit1 ++ rest) = true := by
    rw [List.isPrefixOf_iff_prefix]
    exact List.prefix_append _ _
  simp [regexMatchAt, hp, List.drop_left, h]

/-- A match at the head is a match. -/
theorem regexHitAux_head (l : List Char) (h : regexMatchAt l = true) :
    regexHitAux l = true := by
  cases l with
  | nil => simpa [regexHitAux] using h
  | cons c rest => simp [regexHitAux, h]

/-- The handler's regexp accepts every mismatch message whose client
hash contains no newline. -/
theorem mismatchRegexHit_of_no_newline (ch sh : String) (h : '\n' ∉ ch.data) :
    mismatchRegexHit (hashMismatchMsg ch sh) = true := by
  have e0 : (hashMismatchMsg ch sh).data =
      ((("client provided hash \x27".data ++ ch.data) ++
        "\x27 does not match server calculated hash \x27".data) ++ sh.data) ++
        "\x27".data := rfl
  have e1 : "client provided hash \x27".data = mismatchLit1 ++ ['\x27'] := rfl
  have e2 : "\x27 does not match server calculated hash \x27".data =
      '\x27' :: (mismatchLit2 ++ " server calculated hash \x27".data) := rfl
  have hdata : (hashMismatchMsg ch sh).data =
      mismatchLit1 ++ (('\x27' :: (ch.data ++ ['\x27'])) ++
        (mismatchLit2 ++ (" server calculated hash \x27".data ++
          (sh.data ++ "\x27".data)))) := by
    rw [e0, e1, e2]
    simp [List.append_assoc]
  show regexHitAux (hashMismatchMsg ch sh).data = true
  rw [hdata]
  apply regexHitAux_head
  apply regexMatchAt_lit1
  apply regexScanMid_mid
  intro hmem
  rcases List.mem_cons.mp hmem with h1 | h2
  · exact absurd h1 (by decide)
  · rcases List.mem_append.mp h2 with h3 | h4
    · exact h h3
    · exact absurd h4 (by decide)

/-- The mismatch message is never the empty-content message. -/
theorem hashMismatchMsg_ne_empty (ch sh : String) :
    hashMismatchMsg ch sh ≠ emptyContentMsg := by
  intro h
  have h3 : (hashMismatchMsg ch sh).data.head? = emptyContentMsg.data.head? :=
    congrArg (fun s : String => s.data.head?) h
  rw [show (hashMismatchMsg ch sh).data.head? = some 'c' from rfl,
    show emptyContentMsg.data.head? = some 'l' from rfl] at h3
  exact absurd h3 (by decide)

/-- C6, counterexample: the submission `{log_content: "a",
client_hash: "x\ny"}` is in the hash-mismatch failure case, yet the
handler answers 500, not 400 — the regexp fails because `.` does not
match the newline inside the echoed client hash. This refutes the
claim's "both failure cases are surfaced as HTTP 400". -/
theorem C6_counterexample :
    ("x\ny" ≠ "" ∧ "x\ny" ≠ sha256Hex "a") ∧
    handleSubmitLog c6Req "rid-6" = ⟨500, true, true, none, none⟩ := by
  exact ⟨⟨by decide, by decide⟩, by decide⟩

/-- C6, amended: `submit` fails exactly on empty content or on a
non-empty client hash differing from the lower-case hex SHA-256 of the
content, every accepted submission's receipt carries that hex digest as
its server hash, and at the HTTP surface empty content is answered 400,
a hash mismatch whose client hash is newline-free is answered 400, and
success is answered 202 with status `"ACCEPTED"`. (For a client hash
containing a newline the handler's regexp decides: some such mismatches
escape it and are answered 500, as the counterexample above shows for
`"x\ny"` — though not all, since the regexp can also match inside the
echoed hash before the newline.) -/
theorem C6_submit_validation :
    (∀ (requestID : String) (input : LogInput),
      (∃ e, serviceSubmitLog requestID input = .error e) ↔
        (input.logContent = "" ∨
         (input.clientLogHash ≠ "" ∧
          input.clientLogHash ≠ sha256Hex input.logContent))) ∧
    (∀ (requestID : String) (input : LogInput) (r : LogResult),
      serviceSubmitLog requestID input = .ok r →
      r.serverLogHash = sha256Hex input.logContent) ∧
    (∀ (req : HttpReq) (requestID : String) (p : ReqPayload),
      req.method = "POST" → req.contentType = "application/json" →
      ¬req.contentLength > 10 * 1024 * 1024 → req.body = some p →
      ((p.logContent = "" → (handleSubmitLog req requestID).status = 400) ∧
       (p.logContent ≠ "" → p.clientLogHash ≠ "" →
        p.clientLogHash ≠ sha256Hex p.logContent → '\n' ∉ p.clientLogHash.data →
        (handleSubmitLog req requestID).status = 400) ∧
       (p.logContent ≠ "" →
        (p.clientLogHash = "" ∨ p.clientLogHash = sha256Hex p.logContent) →
        handleSubmitLog req requestID =
          ⟨202, true, true, some "ACCEPTED", some (sha256Hex p.logContent)⟩))) := by
  refine ⟨?_, ?_, ?_⟩
  · intro requestID input
    by_cases hc : input.logContent = ""
    · simp [serviceSubmitLog, hc]
    · by_cases hm : input.clientLogHash ≠ "" ∧
        input.clientLogHash ≠ sha256Hex input.logContent
      · simp [serviceSubmitLog, hc, hm]
      · simp [serviceSubmitLog, hc, hm]
  · intro requestID input r hok
    by_cases hc : input.logContent = ""
    · simp [serviceSubmitLog, hc] at hok
    · by_cases hm : input.clientLogHash ≠ "" ∧
        input.clientLogHash ≠ sha256Hex input.logContent
      · simp [serviceSubmitLog, hc, hm] at hok
      · simp [serviceSubmitLog, hc, hm] at hok
        rw [← hok]
  · intro req requestID p hmeth hct hlen hbody
    refine ⟨?_, ?_, ?_⟩
    · intro hc
      unfold handleSubmitLog
      rw [if_neg (by simp [hmeth]), if_neg (by simp [hct]), if_neg hlen, hbody]
      simp [hc]
    · intro hc hne hdiff hnl
      unfold handleSubmitLog
      rw [if_neg (by simp [hmeth]), if_neg (by simp [hct]), if_neg hlen, hbody]
      simp only [hc, if_false]
      have hsvc : serviceSubmitLog requestID
          { logContent := p.logContent, clientLogHash := p.clientLogHash,
            clientSourceOrgID :=
              if req.headerOrgID ≠ "" then req.headerOrgID else p.clientSourceOrgID } =
          .error (hashMismatchMsg p.clientLogHash (sha256Hex p.logContent)) := by
        simp [serviceSubmitLog, hc, hne, hdiff]
      rw [hsvc]
      simp [hashMismatchMsg_ne_empty, mismatchRegexHit_of_no_newline _ _ hnl]
    · intro hc hmatch
      unfold handleSubmitLog
      rw [if_neg (by simp [hmeth]), if_neg (by simp [hct]), if_neg hlen, hbody]
      simp only [hc, if_false]
      have hsvc : serviceSubmitLog requestID
          { logContent := p.logContent, clientLogHash := p.clientLogHash,
            clientSourceOrgID :=
              if req.headerOrgID ≠ "" then req.headerOrgID else p.clientSourceOrgID } =
          .ok { requestID := requestID, serverLogHash := sha256Hex p.logContent } := by
        rcases hmatch with hempty | hsame
        · simp [serviceSubmitLog, hc, hempty]
        · simp [serviceSubmitLog, hc, hsame]
      rw [hsvc]

/-- C6, witness for the amended theorem: a newline-free mismatching
client hash is answered 400. -/
theorem C6_witness :
    (handleSubmitLog c6PlainReq "rid-6w").status = 400 :=
  (C6_submit_validation.2.2 c6PlainReq "rid-6w" c6PlainPayload
    rfl rfl (by decide) rfl).2.1 (by decide) (by decide) (by decide) (by decide)

end Logchain




